import Mathlib

/-!
Shallow embedding of the BarV2 relayer core (`relayer/app/core/{swap,bridge,
validation,quotes,tokens}.py` and `relayer/app/config/loader.py`) together
with theorems settling the specification claims.

Modelling conventions:
* On-chain addresses are represented by their 160-bit numeric value (`Nat`);
  EIP-55 checksumming only changes the letter case of the textual form and
  preserves this value, so `Web3.to_checksum_address` is the identity at the
  value level, and comparison with the zero-address string is comparison
  with `0`.
* Arbitrary-precision Python integers are `Nat`/`Int`.
* Python `decimal.Decimal` arithmetic is modelled exactly, including the
  default context precision of 28 significant digits with ROUND_HALF_EVEN
  on arithmetic results and the `InvalidOperation` raised by `quantize`
  when the quantized coefficient would exceed the context precision.
* Network oracles (balance reads, quote HTTP calls) are passed in as
  function parameters; a fallible oracle returns `Except`.
* Byte strings are `List Nat` (one entry per byte); hex strings coming off
  the wire are `List Char`.
-/

namespace BarV2

/-! ## Decimal arithmetic model (`decimal.Decimal` as used in `swap.py`) -/

/-- Number of base-10 digits of `n` (1 for `n = 0`), via a fuel-bounded
recursion; fuel `n` always suffices since `n / 10 < n` for `n ≥ 10`. -/
def numDigitsAux : Nat → Nat → Nat
  | 0, _ => 1
  | fuel + 1, n => if n < 10 then 1 else numDigitsAux fuel (n / 10) + 1

/-- Number of base-10 digits of the decimal coefficient `n`. -/
def numDigits (n : Nat) : Nat := numDigitsAux n n

/-- Default precision (significant digits) of Python's decimal context. -/
def decimalPrec : Nat := 28

/-- `n / m` rounded half-to-even (banker's rounding), the rounding mode of
Python's default decimal context. -/
def roundHalfEvenDiv (n m : Nat) : Nat :=
  let q := n / m
  let r := n % m
  if 2 * r < m then q
  else if m < 2 * r then q + 1
  else if q % 2 = 0 then q else q + 1

/-- Apply the default decimal context to an intermediate result with
coefficient `c` and exponent `e`: a coefficient longer than 28 digits is
rounded half-even to 28 significant digits, adjusting the exponent; a
rounding overflow to `10 ^ 28` renormalises to 28 digits. -/
def ctxRound (c : Nat) (e : Int) : Nat × Int :=
  let d := numDigits c
  if d ≤ decimalPrec then (c, e)
  else
    let k := d - decimalPrec
    let c2 := roundHalfEvenDiv c (10 ^ k)
    if c2 = 10 ^ decimalPrec then (c2 / 10, e + k + 1) else (c2, e + k)

/-- Errors raised by decimal operations (`decimal.InvalidOperation`). -/
inductive DecimalError
  | invalidOperation
deriving DecidableEq

/-- `Decimal.quantize(Decimal("1"), rounding=ROUND_DOWN)` on the
non-negative decimal `c × 10 ^ e`, followed by `int(...)`: truncate toward
zero to an integer; raises `InvalidOperation` when the quantized
coefficient needs more than 28 digits. -/
def quantizeDown (c : Nat) (e : Int) : Except DecimalError Nat :=
  let v : Nat := if 0 ≤ e then c * 10 ^ e.toNat else c / 10 ^ (-e).toNat
  if numDigits v ≤ decimalPrec then .ok v else .error .invalidOperation

/-- The per-token minimum-output computation of
`build_swap_parameters` (`swap.py` lines 100–104):
`int((Decimal(assumed) * Decimal(str(tolerance))).quantize(Decimal("1"),
rounding=ROUND_DOWN))`, where the decimal literal `str(tolerance)` is
`sNum × 10 ^ (-sScale)`.  `Decimal.__mul__` applies the default context
(28 significant digits, half-even) to the product. -/
def min_out (assumed : Nat) (sNum sScale : Nat) : Except DecimalError Nat :=
  let p := ctxRound (assumed * sNum) (-(sScale : Int))
  quantizeDown p.1 p.2

/-! ### Digit-count lemmas -/

theorem numDigitsAux_le {fuel n k : Nat} (hk : 1 ≤ k) (hn : n < 10 ^ k) :
    numDigitsAux fuel n ≤ k := by
  induction fuel using Nat.strong_induction_on generalizing n k with
  | _ fuel ih =>
    cases fuel with
    | zero => simpa [numDigitsAux] using hk
    | succ f =>
      by_cases h10 : n < 10
      · simpa [numDigitsAux, h10] using hk
      · -- n ≥ 10 forces k ≥ 2
        have hk2 : 2 ≤ k := by
          rcases Nat.lt_or_ge k 2 with hlt | hge
          · have hk1 : k = 1 := by omega
            subst hk1
            simp only [pow_one] at hn
            omega
          · exact hge
        have hpow : 10 * 10 ^ (k - 1) = 10 ^ k := by
          rw [← pow_succ']
          congr 1
          omega
        have hdiv : n / 10 < 10 ^ (k - 1) :=
          Nat.div_lt_of_lt_mul (by rw [hpow]; exact hn)
        have h1 : 1 ≤ k - 1 := by omega
        have := ih f (by omega) h1 hdiv
        simp only [numDigitsAux, h10, if_false]
        omega

theorem numDigits_le {n k : Nat} (hk : 1 ≤ k) (hn : n < 10 ^ k) :
    numDigits n ≤ k := numDigitsAux_le hk hn

/-! ### C1 support: exactness of `min_out` inside the context precision -/

theorem ctxRound_of_small {c : Nat} (e : Int) (h : numDigits c ≤ decimalPrec) :
    ctxRound c e = (c, e) := by
  simp [ctxRound, h]

theorem min_out_exact {a sNum sScale : Nat} (hfit : a * sNum < 10 ^ decimalPrec) :
    min_out a sNum sScale = .ok (a * sNum / 10 ^ sScale) := by
  have hd : numDigits (a * sNum) ≤ decimalPrec :=
    numDigits_le (by norm_num [decimalPrec]) hfit
  unfold min_out
  rw [ctxRound_of_small _ hd]
  rcases Nat.eq_zero_or_pos sScale with hs | hs
  · subst hs
    simp [quantizeDown, hd]
  · have he : ¬ (0 : Int) ≤ -(sScale : Int) := by
      simp only [not_le]
      exact neg_neg_of_pos (by exact_mod_cast hs)
    have hle : a * sNum / 10 ^ sScale ≤ a * sNum :=
      Nat.div_le_self _ _
    have hsmall : numDigits (a * sNum / 10 ^ sScale) ≤ decimalPrec :=
      numDigits_le (by norm_num [decimalPrec]) (lt_of_le_of_lt hle hfit)
    simp [quantizeDown, he, hsmall]

theorem min_out_le {a sNum sScale v : Nat} (htol : sNum ≤ 10 ^ sScale)
    (hfit : a * sNum < 10 ^ decimalPrec)
    (hv : min_out a sNum sScale = .ok v) : v ≤ a := by
  rw [min_out_exact hfit] at hv
  have hv' : v = a * sNum / 10 ^ sScale := by
    cases hv; rfl
  subst hv'
  calc a * sNum / 10 ^ sScale ≤ a * 10 ^ sScale / 10 ^ sScale :=
        Nat.div_le_div_right (Nat.mul_le_mul_left _ htol)
    _ = a := Nat.mul_div_cancel a (Nat.pos_pow_of_pos _ (by norm_num))

/-! ## Hex parsing model (Python `int(s, 16)`, `bytes.fromhex`,
`Web3.to_checksum_address` at the value level) -/

/-- Whether `c` is an ASCII hexadecimal digit. -/
def isHexDigit (c : Char) : Bool :=
  (decide ('0' ≤ c) && decide (c ≤ '9')) ||
  (decide ('a' ≤ c) && decide (c ≤ 'f')) ||
  (decide ('A' ≤ c) && decide (c ≤ 'F'))

/-- Numeric value of a hexadecimal digit. -/
def hexVal (c : Char) : Nat :=
  if decide ('0' ≤ c) && decide (c ≤ '9') then c.toNat - 48
  else if decide ('a' ≤ c) && decide (c ≤ 'f') then c.toNat - 87
  else c.toNat - 55

/-- Accumulate hexadecimal digits left to right; fails on a non-digit. -/
def parseHexDigitsGo : List Char → Nat → Option Nat
  | [], acc => some acc
  | c :: cs, acc =>
    if isHexDigit c then parseHexDigitsGo cs (acc * 16 + hexVal c) else none

/-- Unsigned part of Python's `int(s, 16)`: an optional `0x`/`0X` prefix
followed by at least one hexadecimal digit.  (Underscore digit separators,
which CPython also accepts between digits, are omitted: an underscore may
only stand between digits, after any sign, so it can never change the sign
of an accepted value.) -/
def parseUnsignedHex (cs : List Char) : Option Nat :=
  let body : List Char :=
    match cs with
    | '0' :: 'x' :: rest => rest
    | '0' :: 'X' :: rest => rest
    | rest => rest
  match body with
  | [] => none
  | _ => parseHexDigitsGo body 0

/-- Whether CPython's `int(str, base)` treats `c` as strippable
whitespace (`Py_UNICODE_ISSPACE`): U+0009–U+000D, U+001C–U+001F, space,
U+0085, U+00A0, U+1680, U+2000–U+200A, U+2028, U+2029, U+202F, U+205F,
U+3000. -/
def isPySpace (c : Char) : Bool :=
  let n := c.toNat
  (9 ≤ n && n ≤ 13) || (28 ≤ n && n ≤ 31) || n == 32 || n == 133 ||
  n == 160 || n == 5760 || (8192 ≤ n && n ≤ 8202) || n == 8232 ||
  n == 8233 || n == 8239 || n == 8287 || n == 12288

/-- The leading/trailing whitespace stripping CPython's `int(s, 16)`
performs before sign handling. -/
def stripPySpace (cs : List Char) : List Char :=
  ((cs.dropWhile isPySpace).reverse.dropWhile isPySpace).reverse

/-- Sign handling of Python's `int(s, 16)` after whitespace stripping:
an optional sign followed by the unsigned hexadecimal form.  Note that a
leading `-` is accepted and produces a negative integer. -/
def pythonIntHexCore : List Char → Option Int
  | '-' :: rest => (parseUnsignedHex rest).map (fun n => -(n : Int))
  | '+' :: rest => (parseUnsignedHex rest).map (fun n => (n : Int))
  | s => (parseUnsignedHex s).map (fun n => (n : Int))

/-- Python's `int(s, 16)`: strip surrounding whitespace, then an optional
sign and the unsigned hexadecimal form.  `int(" -0x1", 16)` is accepted
and yields `-1`. -/
def pythonIntHex (s : List Char) : Option Int :=
  pythonIntHexCore (stripPySpace s)

/-- `Web3.to_checksum_address` at the value level: requires `0x` followed
by exactly 40 hexadecimal digits and returns the 160-bit numeric value
(checksumming only normalises letter case, which the value ignores). -/
def parseAddress (cs : List Char) : Option Nat :=
  match cs with
  | '0' :: 'x' :: rest =>
    if rest.length = 40 && rest.all isHexDigit then parseHexDigitsGo rest 0
    else none
  | _ => none

/-- Pairs of hexadecimal digits to bytes (`bytes.fromhex`). -/
def parseHexPairs : List Char → Option (List Nat)
  | [] => some []
  | c1 :: c2 :: rest =>
    if isHexDigit c1 && isHexDigit c2 then
      (parseHexPairs rest).map (fun bs => (hexVal c1 * 16 + hexVal c2) :: bs)
    else none
  | [_] => none

/-- `hex_to_bytes` (`utils.py`): strip a leading lowercase `0x`, then
`bytes.fromhex`. -/
def hex_to_bytes (cs : List Char) : Option (List Nat) :=
  parseHexPairs (match cs with | '0' :: 'x' :: rest => rest | rest => rest)

theorem pythonIntHexCore_nonneg {s : List Char} {v : Int}
    (hparse : pythonIntHexCore s = some v)
    (hsign : ∀ rest, s ≠ '-' :: rest) : 0 ≤ v := by
  unfold pythonIntHexCore at hparse
  split at hparse
  · exact absurd rfl (hsign _)
  · rename_i rest
    cases hu : parseUnsignedHex rest with
    | none => rw [hu] at hparse; simp at hparse
    | some n =>
      rw [hu] at hparse
      simp at hparse
      omega
  · cases hu : parseUnsignedHex s with
    | none => rw [hu] at hparse; simp at hparse
    | some n =>
      rw [hu] at hparse
      simp at hparse
      omega

theorem pythonIntHex_nonneg {s : List Char} {v : Int}
    (hparse : pythonIntHex s = some v)
    (hsign : ∀ rest, stripPySpace s ≠ '-' :: rest) : 0 ≤ v :=
  pythonIntHexCore_nonneg hparse hsign

/-! ## Bridge parameter builder (`bridge.py`) -/

/-- Hex-encoded transaction envelope from the Li.Fi (Jumper) quote
(`jumper_details["transaction"]`). -/
structure TxEnvelope where
  toAddr : List Char
  data : List Char
  value : List Char

/-- Decoded Jumper quote payload (the parts `build_bridge_call` reads). -/
structure JumperDetails where
  transaction : TxEnvelope

/-- Failures of `build_bridge_call`: quote transport/HTTP failure, or a
missing/malformed envelope field. -/
inductive BridgeError
  | quoteFailure
  | malformedEnvelope
deriving DecidableEq

/-- `BridgeBuildResult` (`bridge.py`): prepared call data for the bridge
leg.  The raw `jumper_payload` dict is retained as the decoded details. -/
structure BridgeBuildResult where
  call_target : Nat
  call_data : List Nat
  native_value : Int
  bridge_amount : Nat
  contract_usdc_balance : Nat
  min_total_usdc : Nat
  jumper_payload : JumperDetails

/-- `build_bridge_call` (`bridge.py`): `contract_balance` is the observed
settlement-asset (USDC) balance of the destination contract read via
`balance_of`; `jumper_fn` is the bridge-quote oracle, called with
`amount = contract_balance + min_total_usdc`.  The envelope fields are
parsed exactly as the source does: `Web3.to_checksum_address(tx["to"])`,
`hex_to_bytes(tx["data"])`, `int(tx["value"], 16)`. -/
def build_bridge_call (contract_balance min_total_usdc : Nat)
    (jumper_fn : Nat → Except Unit JumperDetails) :
    Except BridgeError BridgeBuildResult :=
  let bridge_amount := contract_balance + min_total_usdc
  match jumper_fn bridge_amount with
  | .error _ => .error .quoteFailure
  | .ok details =>
    let tx := details.transaction
    match parseAddress tx.toAddr, hex_to_bytes tx.data, pythonIntHex tx.value with
    | some target, some callBytes, some value =>
      .ok { call_target := target
            call_data := callBytes
            native_value := value
            bridge_amount := bridge_amount
            contract_usdc_balance := contract_balance
            min_total_usdc := min_total_usdc
            jumper_payload := details }
    | _, _, _ => .error .malformedEnvelope

/-! ## Validation engine (`validation.py`) -/

/-- `TokenValidationResult` (`validation.py`): balance and allowance
context for one swap input token. -/
structure TokenValidationResult where
  token_address : Nat
  symbol : String
  required_amount : Nat
  balance : Nat
  allowance : Nat
deriving DecidableEq

/-- `TokenValidationResult.has_allowance`: `allowance >= required_amount`. -/
def TokenValidationResult.has_allowance (r : TokenValidationResult) : Bool :=
  decide (r.required_amount ≤ r.allowance)

/-- Whitelisted token entry (`TokenConfig` in `loader.py`), with the
address held as its checksummed numeric value. -/
structure TokenConfig where
  symbol : String
  address : Nat
deriving DecidableEq

/-- `_address_symbol_map` lookup (`validation.py`): symbol of the
whitelisted token with the given address, defaulting to `"UNKNOWN"`.
The Python dict is built by insertion in list order, so on duplicate
addresses the last entry wins; searching the reversed list mirrors that. -/
def addressSymbol (tokens : List TokenConfig) (addr : Nat) : String :=
  match tokens.reverse.find? (fun t => t.address == addr) with
  | some t => t.symbol
  | none => "UNKNOWN"

/-- Failures of `validate_swap_inputs`: the three empty-array guards plus
the hard balance-shortfall failure. -/
inductive SwapValidationError
  | emptyInputTokens
  | emptyOutputTokens
  | emptyExecutors
  | insufficientBalance (token balance required : Nat)
deriving DecidableEq

/-- Loop body of `validate_swap_inputs`: per input token, re-read balance
and allowance, raise on `balance < amount_in`, and record the result. -/
def validateTokensGo (whitelist : List TokenConfig)
    (balanceOf allowanceOf : Nat → Nat) :
    List (Nat × Nat × Nat) → Except SwapValidationError (List TokenValidationResult)
  | [] => .ok []
  | (addr, amountIn, _transferTo) :: rest =>
    let balance := balanceOf addr
    let allowance := allowanceOf addr
    if balance < amountIn then
      .error (.insufficientBalance addr balance amountIn)
    else
      match validateTokensGo whitelist balanceOf allowanceOf rest with
      | .error e => .error e
      | .ok results =>
        .ok ({ token_address := addr
               symbol := addressSymbol whitelist addr
               required_amount := amountIn
               balance := balance
               allowance := allowance } :: results)

/-- `validate_swap_inputs` (`validation.py`): the oracles `balanceOf` and
`allowanceOf` are the chain reads for the fixed holding account/spender. -/
def validate_swap_inputs (whitelist : List TokenConfig)
    (balanceOf allowanceOf : Nat → Nat)
    (input_tokens : List (Nat × Nat × Nat))
    (output_tokens : List (Nat × Nat × Nat))
    (executors : List (Nat × Nat × List Nat)) :
    Except SwapValidationError (List TokenValidationResult) :=
  if input_tokens.isEmpty then .error .emptyInputTokens
  else if output_tokens.isEmpty then .error .emptyOutputTokens
  else if executors.isEmpty then .error .emptyExecutors
  else validateTokensGo whitelist balanceOf allowanceOf input_tokens

/-- `BridgeValidationResult` (`validation.py`). -/
structure BridgeValidationResult where
  call_target : Nat
  native_balance : Int
  required_native : Int
  has_sufficient_native : Bool
deriving DecidableEq

/-- The fixed native-funding buffer of `validate_bridge_call`
(`validation.py` line 119): 1,000,000 gas units at 1 gwei, a constant
independent of the live gas price. -/
def gas_buffer : Int := 1000000 * 10 ^ 9

/-- `validate_bridge_call` (`validation.py`): raises when the checksummed
call target equals the zero address (numeric value 0); otherwise records
the funding requirement `native_value + gas_buffer` and whether the
signer's native balance covers it.  The comparison against the expected
LiFiDiamond address only logs a warning and is not modelled. -/
def validate_bridge_call (call_target : Nat)
    (native_balance native_value : Int) :
    Except Unit BridgeValidationResult :=
  if call_target = 0 then .error ()
  else
    .ok { call_target := call_target
          native_balance := native_balance
          required_native := native_value + gas_buffer
          has_sufficient_native := decide (native_value + gas_buffer ≤ native_balance) }

/-! ## Route quote decoder fallback (`quotes.py`, `request_swap_route`
lines 133–142)

The two ABI decoders `_decode_snwap_multiple` and `_decode_snwap` call the
external `web3` ABI machinery (an out-of-scope collaborator); they are
passed in as oracle parameters.  Addresses inside decoded results are
already checksummed by the decoders, so re-checksumming in the caller is
the identity at the value level. -/

/-- One entry of the `executors` array decoded from a `snwapMultiple`
payload: `{executor, value, data}`. -/
structure MultiExecutorEntry where
  executor : Nat
  value : Int
  data : List Nat
deriving DecidableEq

/-- Result of `_decode_snwap_multiple` (the fields the caller reads). -/
structure MultiDecoded where
  executors : List MultiExecutorEntry
deriving DecidableEq

/-- Result of `_decode_snwap` (the fields the caller reads). -/
structure SingleDecoded where
  executor : Nat
  executorData : List Nat
deriving DecidableEq

/-- `DecodeError`: both decoders wrap any decoding exception in a
`ValueError` carrying a message. -/
structure DecodeError where
  message : String
deriving DecidableEq

/-- The fallback decode of `request_swap_route`: try the multi-execution
shape; any exception inside the `try` block — a decode failure, or the
`IndexError` from `executors[0]` on an empty executor array — falls back
to the legacy single-execution shape, whose own failure propagates to the
caller.  On the multi path only the first executor entry is used. -/
def decode_route_executor
    (decodeMulti : List Char → Except DecodeError MultiDecoded)
    (decodeSingle : List Char → Except DecodeError SingleDecoded)
    (raw : List Char) : Except DecodeError (Nat × List Nat) :=
  let tryMulti : Except DecodeError (Nat × List Nat) :=
    match decodeMulti raw with
    | .error e => .error e
    | .ok multi =>
      match multi.executors with
      | [] => .error { message := "list index out of range" }
      | entry :: _ => .ok (entry.executor, entry.data)
  match tryMulti with
  | .ok result => .ok result
  | .error _ =>
    match decodeSingle raw with
    | .error e => .error e
    | .ok single => .ok (single.executor, single.executorData)

/-! ## Contract-handle cache (`tokens.py`, `_get_or_create_contract`) -/

/-- A live `Web3` connection object.  `objId` models CPython's `id(...)`:
distinct live objects have distinct `objId`s.  `connectionId` is the
configured connection identity (RPC endpoint/chain) the object was built
from; two objects configured identically share `connectionId` but not
`objId`. -/
structure Web3Handle where
  objId : Nat
  connectionId : Nat
deriving DecidableEq

/-- A contract handle as created by `web3.eth.contract`: bound to the
connection object that created it and to the token address. -/
structure ContractHandle where
  boundObjId : Nat
  address : Nat
deriving DecidableEq

/-- The cache key of `_get_or_create_contract` (`tokens.py` line 41):
`(id(web3), checksum_address)`. -/
def cacheKey (web3 : Web3Handle) (checksum_address : Nat) : Nat × Nat :=
  (web3.objId, checksum_address)

/-- `_get_or_create_contract` with the module-global `_CONTRACT_CACHE`
dict made an explicit association list: look the key up, create and store
a fresh handle on a miss. -/
def getOrCreateContract (cache : List ((Nat × Nat) × ContractHandle))
    (web3 : Web3Handle) (token_address : Nat) :
    ContractHandle × List ((Nat × Nat) × ContractHandle) :=
  let key := cacheKey web3 token_address
  match cache.find? (fun entry => entry.1 == key) with
  | some entry => (entry.2, cache)
  | none =>
    let contract : ContractHandle := { boundObjId := web3.objId, address := token_address }
    (contract, (key, contract) :: cache)

/-! ## Swap parameter builder (`swap.py`) -/

/-- Configuration slice consumed by `build_swap_parameters`
(from `RelayerConfig` in `loader.py`): the whitelist, the settlement-asset
address, the dust threshold, and the slippage tolerance written as the
decimal literal `slippage_num × 10 ^ (-slippage_scale)` (the digits of
`str(config.defaults.slippage_tolerance)`).  `load_config` validates
`0 < slippage_tolerance ≤ 1`, i.e. `0 < slippage_num ≤ 10 ^ slippage_scale`. -/
structure SwapConfig where
  whitelisted_tokens : List TokenConfig
  usdc_address : Nat
  usdc_threshold : Nat
  slippage_num : Nat
  slippage_scale : Nat

/-- `SushiQuoteResult` (`utils.py`): the fields `build_swap_parameters`
reads from a decoded route quote. -/
structure SushiQuoteResult where
  executor : Nat
  executor_data : List Nat
  assumed_amount_out : Nat
deriving DecidableEq

/-- `SwapTokenQuote` (`swap.py`): details collected per surviving token. -/
structure SwapTokenQuote where
  symbol : String
  token_address : Nat
  balance : Nat
  assumed_usdc_out : Nat
  min_usdc_out : Nat
  executor : Nat
  executor_data : List Nat
deriving DecidableEq

/-- Mutable loop state of `build_swap_parameters`. -/
structure SwapAcc where
  input_tokens : List (Nat × Nat × Nat)
  executors : List (Nat × Nat × List Nat)
  total_assumed : Nat
  total_min : Nat
  token_quotes : List SwapTokenQuote

/-- Failures of `build_swap_parameters`: the pre-loop configuration error
("No whitelisted tokens configured"), the post-loop eligibility error
("No eligible tokens to swap after applying thresholds"), and the
uncaught `decimal.InvalidOperation` from the slippage quantization (the
`try` block only wraps the quote call). -/
inductive SwapBuildError
  | whitelistEmpty
  | noEligibleTokens
  | decimalOverflow
deriving DecidableEq

/-- `SwapBuildResult` (`swap.py`). -/
structure SwapBuildResult where
  input_tokens : List (Nat × Nat × Nat)
  output_tokens : List (Nat × Nat × Nat)
  executors : List (Nat × Nat × List Nat)
  min_total_usdc : Nat
  assumed_total_usdc : Nat
  token_quotes : List SwapTokenQuote

/-- `sorted(tokens, key=lambda token: token.symbol)` via stable insertion
sort on the symbol. -/
def insertBySymbol (t : TokenConfig) : List TokenConfig → List TokenConfig
  | [] => [t]
  | u :: us => if t.symbol ≤ u.symbol then t :: u :: us else u :: insertBySymbol t us

/-- `_iter_whitelisted_tokens` (`swap.py`): the whitelist sorted by symbol. -/
def sortBySymbol : List TokenConfig → List TokenConfig
  | [] => []
  | t :: ts => insertBySymbol t (sortBySymbol ts)

/-- Loop body of `build_swap_parameters` for one whitelisted token:
skip on zero balance, skip when the quote oracle fails, skip when the
assumed output is below the dust threshold; otherwise compute the
slippage-bounded minimum (whose `InvalidOperation` aborts the build) and
append to every accumulator field. -/
def processToken (cfg : SwapConfig) (balanceOf : Nat → Nat)
    (quote_fn : Nat → Nat → Except Unit SushiQuoteResult)
    (acc : SwapAcc) (token : TokenConfig) : Except SwapBuildError SwapAcc :=
  let balance := balanceOf token.address
  if balance = 0 then .ok acc
  else
    match quote_fn token.address balance with
    | .error _ => .ok acc
    | .ok q =>
      if q.assumed_amount_out < cfg.usdc_threshold then .ok acc
      else
        match min_out q.assumed_amount_out cfg.slippage_num cfg.slippage_scale with
        | .error _ => .error .decimalOverflow
        | .ok minOut =>
          .ok { input_tokens := acc.input_tokens ++ [(token.address, balance, q.executor)]
                executors := acc.executors ++ [(q.executor, 0, q.executor_data)]
                total_assumed := acc.total_assumed + q.assumed_amount_out
                total_min := acc.total_min + minOut
                token_quotes := acc.token_quotes ++
                  [{ symbol := token.symbol
                     token_address := token.address
                     balance := balance
                     assumed_usdc_out := q.assumed_amount_out
                     min_usdc_out := minOut
                     executor := q.executor
                     executor_data := q.executor_data }] }

/-- The empty loop state. -/
def initSwapAcc : SwapAcc :=
  { input_tokens := [], executors := [], total_assumed := 0, total_min := 0,
    token_quotes := [] }

/-- `build_swap_parameters` (`swap.py`): `contract_address` is the
destination contract (quote recipient), `balanceOf` reads the holding
account's balances, `quote_fn` is the route-quote oracle (any failure it
raises is caught per token). -/
def build_swap_parameters (cfg : SwapConfig) (contract_address : Nat)
    (balanceOf : Nat → Nat)
    (quote_fn : Nat → Nat → Except Unit SushiQuoteResult) :
    Except SwapBuildError SwapBuildResult :=
  let tokens := sortBySymbol cfg.whitelisted_tokens
  if tokens.isEmpty then .error .whitelistEmpty
  else
    match tokens.foldlM (processToken cfg balanceOf quote_fn) initSwapAcc with
    | .error e => .error e
    | .ok acc =>
      if acc.input_tokens.isEmpty then .error .noEligibleTokens
      else
        .ok { input_tokens := acc.input_tokens
              output_tokens := [(cfg.usdc_address, contract_address, acc.total_min)]
              executors := acc.executors
              min_total_usdc := acc.total_min
              assumed_total_usdc := acc.total_assumed
              token_quotes := acc.token_quotes }

/-- A token the loop of `build_swap_parameters` skips without aborting:
zero balance, a failing quote, or an assumed output below the dust
threshold. -/
def skipsToken (cfg : SwapConfig) (balanceOf : Nat → Nat)
    (quote_fn : Nat → Nat → Except Unit SushiQuoteResult)
    (token : TokenConfig) : Prop :=
  balanceOf token.address = 0 ∨
  (∃ e, quote_fn token.address (balanceOf token.address) = .error e) ∨
  (∃ q, quote_fn token.address (balanceOf token.address) = .ok q ∧
    q.assumed_amount_out < cfg.usdc_threshold)

/-! ## Lemmas about the swap builder loop -/

theorem except_bind_error {ε α β : Type} (e : ε) (k : α → Except ε β) :
    (Except.error e >>= k) = Except.error e := rfl

theorem except_bind_ok {ε α β : Type} (a : α) (k : α → Except ε β) :
    (Except.ok a >>= k) = k a := rfl

/-- The loop state stays a projection of the collected per-token quotes:
both arrays are images of `token_quotes` and both totals are sums over it. -/
def SwapAccCoherent (acc : SwapAcc) : Prop :=
  acc.input_tokens =
    acc.token_quotes.map (fun qt => (qt.token_address, qt.balance, qt.executor)) ∧
  acc.executors =
    acc.token_quotes.map (fun qt => (qt.executor, 0, qt.executor_data)) ∧
  acc.total_min = (acc.token_quotes.map SwapTokenQuote.min_usdc_out).sum ∧
  acc.total_assumed = (acc.token_quotes.map SwapTokenQuote.assumed_usdc_out).sum

theorem initSwapAcc_coherent : SwapAccCoherent initSwapAcc := by
  refine ⟨rfl, rfl, rfl, rfl⟩

theorem processToken_coherent {cfg : SwapConfig} {balanceOf : Nat → Nat}
    {quote_fn : Nat → Nat → Except Unit SushiQuoteResult}
    {acc acc' : SwapAcc} {token : TokenConfig}
    (h : processToken cfg balanceOf quote_fn acc token = .ok acc')
    (hc : SwapAccCoherent acc) : SwapAccCoherent acc' := by
  unfold processToken at h
  simp only [] at h
  split at h
  · cases h; exact hc
  · split at h
    · cases h; exact hc
    · split at h
      · cases h; exact hc
      · split at h
        · cases h
        · cases h
          obtain ⟨h1, h2, h3, h4⟩ := hc
          refine ⟨?_, ?_, ?_, ?_⟩ <;>
            simp [h1, h2, h3, h4, List.map_append, List.sum_append]

theorem foldlM_processToken_coherent {cfg : SwapConfig} {balanceOf : Nat → Nat}
    {quote_fn : Nat → Nat → Except Unit SushiQuoteResult} :
    ∀ (l : List TokenConfig) (acc acc' : SwapAcc),
    SwapAccCoherent acc →
    l.foldlM (processToken cfg balanceOf quote_fn) acc = .ok acc' →
    SwapAccCoherent acc'
  | [], acc, acc', hc, h => by
    rw [List.foldlM_nil] at h
    cases h
    exact hc
  | t :: ts, acc, acc', hc, h => by
    rw [List.foldlM_cons] at h
    cases hp : processToken cfg balanceOf quote_fn acc t with
    | error e => rw [hp, except_bind_error] at h; cases h
    | ok a =>
      rw [hp, except_bind_ok] at h
      exact foldlM_processToken_coherent ts a acc' (processToken_coherent hp hc) h

/-- Everything the claims need about a successfully built swap plan. -/
theorem build_swap_result_spec {cfg : SwapConfig} {contract_address : Nat}
    {balanceOf : Nat → Nat}
    {quote_fn : Nat → Nat → Except Unit SushiQuoteResult} {r : SwapBuildResult}
    (h : build_swap_parameters cfg contract_address balanceOf quote_fn = .ok r) :
    r.input_tokens =
      r.token_quotes.map (fun qt => (qt.token_address, qt.balance, qt.executor)) ∧
    r.executors =
      r.token_quotes.map (fun qt => (qt.executor, 0, qt.executor_data)) ∧
    r.min_total_usdc = (r.token_quotes.map SwapTokenQuote.min_usdc_out).sum ∧
    r.assumed_total_usdc = (r.token_quotes.map SwapTokenQuote.assumed_usdc_out).sum ∧
    r.output_tokens = [(cfg.usdc_address, contract_address, r.min_total_usdc)] := by
  unfold build_swap_parameters at h
  simp only [] at h
  split at h
  · cases h
  · split at h
    · cases h
    · rename_i acc hfold
      split at h
      · cases h
      · cases h
        have hc := foldlM_processToken_coherent _ _ _ initSwapAcc_coherent hfold
        obtain ⟨h1, h2, h3, h4⟩ := hc
        exact ⟨h1, h2, h3, h4, rfl⟩

/-! ## Lemmas about sorting and skipping (C8 support) -/

theorem mem_insertBySymbol {x t : TokenConfig} {l : List TokenConfig} :
    x ∈ insertBySymbol t l ↔ x = t ∨ x ∈ l := by
  induction l with
  | nil => simp [insertBySymbol]
  | cons u us ih =>
    unfold insertBySymbol
    split
    · simp
    · simp only [List.mem_cons, ih]
      tauto

theorem mem_sortBySymbol {x : TokenConfig} {l : List TokenConfig} :
    x ∈ sortBySymbol l ↔ x ∈ l := by
  induction l with
  | nil => simp [sortBySymbol]
  | cons t ts ih =>
    simp only [sortBySymbol, mem_insertBySymbol, ih, List.mem_cons]

theorem insertBySymbol_ne_nil (t : TokenConfig) (l : List TokenConfig) :
    insertBySymbol t l ≠ [] := by
  cases l with
  | nil => simp [insertBySymbol]
  | cons u us =>
    unfold insertBySymbol
    split <;> simp

theorem sortBySymbol_eq_nil {l : List TokenConfig} :
    sortBySymbol l = [] ↔ l = [] := by
  cases l with
  | nil => simp [sortBySymbol]
  | cons t ts =>
    simp only [sortBySymbol]
    constructor
    · intro h
      exact absurd h (insertBySymbol_ne_nil _ _)
    · intro h
      cases h

theorem processToken_skip {cfg : SwapConfig} {balanceOf : Nat → Nat}
    {quote_fn : Nat → Nat → Except Unit SushiQuoteResult}
    {token : TokenConfig} (acc : SwapAcc)
    (hskip : skipsToken cfg balanceOf quote_fn token) :
    processToken cfg balanceOf quote_fn acc token = .ok acc := by
  rcases hskip with h0 | ⟨e, he⟩ | ⟨q, hq, hlt⟩
  · simp [processToken, h0]
  · by_cases h0 : balanceOf token.address = 0
    · simp [processToken, h0]
    · simp [processToken, h0, he]
  · by_cases h0 : balanceOf token.address = 0
    · simp [processToken, h0]
    · simp [processToken, h0, hq, hlt]

theorem foldlM_processToken_all_skip {cfg : SwapConfig} {balanceOf : Nat → Nat}
    {quote_fn : Nat → Nat → Except Unit SushiQuoteResult} :
    ∀ (l : List TokenConfig) (acc : SwapAcc),
    (∀ t ∈ l, skipsToken cfg balanceOf quote_fn t) →
    l.foldlM (processToken cfg balanceOf quote_fn) acc = .ok acc
  | [], acc, _ => List.foldlM_nil _ _
  | t :: ts, acc, hall => by
    rw [List.foldlM_cons, processToken_skip acc (hall t (by simp)),
      except_bind_ok]
    exact foldlM_processToken_all_skip ts acc (fun u hu => hall u (by simp [hu]))

/-! ## Lemmas about swap-input validation (C6 support) -/

/-- The record `validate_swap_inputs` produces for one input token. -/
def mkTokenValidation (whitelist : List TokenConfig)
    (balanceOf allowanceOf : Nat → Nat) (ti : Nat × Nat × Nat) :
    TokenValidationResult :=
  { token_address := ti.1
    symbol := addressSymbol whitelist ti.1
    required_amount := ti.2.1
    balance := balanceOf ti.1
    allowance := allowanceOf ti.1 }

theorem validateTokensGo_not_ok_of_insufficient {whitelist : List TokenConfig}
    {balanceOf allowanceOf : Nat → Nat} :
    ∀ {l : List (Nat × Nat × Nat)},
    (∃ ti ∈ l, balanceOf ti.1 < ti.2.1) →
    ∀ results, validateTokensGo whitelist balanceOf allowanceOf l ≠ .ok results := by
  intro l
  induction l with
  | nil => rintro ⟨ti, hmem, -⟩; cases hmem
  | cons hd tl ih =>
    rintro ⟨ti, hmem, hbal⟩ results h
    obtain ⟨addr, amountIn, transferTo⟩ := hd
    unfold validateTokensGo at h
    simp only [] at h
    rcases List.mem_cons.mp hmem with heq | hmem'
    · subst heq
      have hb : balanceOf addr < amountIn := hbal
      rw [if_pos hb] at h
      cases h
    · by_cases hb : balanceOf addr < amountIn
      · rw [if_pos hb] at h
        cases h
      · rw [if_neg hb] at h
        cases hrec : validateTokensGo whitelist balanceOf allowanceOf tl with
        | error e => rw [hrec] at h; cases h
        | ok rs => exact ih ⟨ti, hmem', hbal⟩ rs hrec

theorem validateTokensGo_ok_of_sufficient {whitelist : List TokenConfig}
    {balanceOf allowanceOf : Nat → Nat} :
    ∀ {l : List (Nat × Nat × Nat)},
    (∀ ti ∈ l, ti.2.1 ≤ balanceOf ti.1) →
    validateTokensGo whitelist balanceOf allowanceOf l =
      .ok (l.map (mkTokenValidation whitelist balanceOf allowanceOf)) := by
  intro l
  induction l with
  | nil => intro _; rfl
  | cons hd tl ih =>
    intro hall
    obtain ⟨addr, amountIn, transferTo⟩ := hd
    have hsuf : amountIn ≤ balanceOf addr :=
      hall (addr, amountIn, transferTo) (by simp)
    have hbal : ¬ balanceOf addr < amountIn := by omega
    unfold validateTokensGo
    simp only []
    rw [if_neg hbal, ih (fun ti hti => hall ti (by simp [hti]))]
    rfl

/-! ## Shared concrete instances for witnesses -/

/-- One-token configuration mirroring spec Scenario A (threshold 10⁶,
tolerance 0.98 = 98 × 10⁻²). -/
def exampleSwapCfg : SwapConfig :=
  { whitelisted_tokens := [{ symbol := "TOK", address := 7 }]
    usdc_address := 100
    usdc_threshold := 1000000
    slippage_num := 98
    slippage_scale := 2 }

/-- Balance oracle: every token balance is 1000. -/
def exampleBalanceOf : Nat → Nat := fun _ => 1000

/-- Quote oracle: executor 55, payload bytes `[1, 2]`, assumed output
2,000,000. -/
def exampleQuoteFn : Nat → Nat → Except Unit SushiQuoteResult :=
  fun _ _ => .ok { executor := 55, executor_data := [1, 2], assumed_amount_out := 2000000 }

/-- The plan `build_swap_parameters` produces for the Scenario A inputs. -/
def exampleSwapResult : SwapBuildResult :=
  { input_tokens := [(7, 1000, 55)]
    output_tokens := [(100, 200, 1960000)]
    executors := [(55, 0, [1, 2])]
    min_total_usdc := 1960000
    assumed_total_usdc := 2000000
    token_quotes := [{ symbol := "TOK", token_address := 7, balance := 1000,
                       assumed_usdc_out := 2000000, min_usdc_out := 1960000,
                       executor := 55, executor_data := [1, 2] }] }

/-- The textual zero address `0x` followed by 40 zeros. -/
def zeroAddrHex : List Char := '0' :: 'x' :: List.replicate 40 '0'

/-- Envelope whose target is the zero address with empty calldata and
value `0x0`. -/
def exampleEnvelope : TxEnvelope :=
  { toAddr := zeroAddrHex, data := ['0', 'x'], value := ['0', 'x', '0'] }

/-- Bridge-quote oracle returning `exampleEnvelope`. -/
def exampleJumperFn : Nat → Except Unit JumperDetails :=
  fun _ => .ok { transaction := exampleEnvelope }

/-! ## Claim C1 -/

/-- Claim C1, counterexample.  At tolerance 0.5 (decimal literal `0.5`,
within the loader's `(0, 1]` bound) and `assumedAmountOut = 10^28 + 3`,
the exact product `5000000000000000000000000001.5` needs 29 significant
digits, so `Decimal.__mul__` rounds it half-even at the default 28-digit
context precision to `...002` before the truncating quantize runs: the
code returns `5000000000000000000000000002`, not
`floor(a·t) = 5000000000000000000000000001`.  The computation is thus not
carried out with exact decimal arithmetic and truncation toward zero, as
the claim states. -/
theorem claim1_counterexample :
    min_out (10 ^ 28 + 3) 5 1 = .ok 5000000000000000000000000002 ∧
    (10 ^ 28 + 3) * 5 / 10 ^ 1 = 5000000000000000000000000001 ∧
    (5000000000000000000000000002 : Nat) ≠ 5000000000000000000000000001 := by
  refine ⟨by rfl, by norm_num, by norm_num⟩

/-- Claim C1 (amended): for every tolerance `sNum × 10^(-sScale)` in
`(0, 1]` (the bounds `load_config` enforces) and every assumed output `a`
whose product `a * sNum` stays within the default decimal context
precision of 28 significant digits, the per-token minimum output equals
`floor(a · t)` computed exactly with truncation toward zero, and satisfies
`0 ≤ minOut ≤ a`.  Determinism is inherent: `min_out` is a pure function
of its arguments.  (Beyond 28 significant digits the multiplication
rounds half-even first, and the result can exceed the floor — see the
counterexample.) -/
theorem claim1_min_out_floor (a sNum sScale : Nat)
    (hpos : 0 < sNum) (htol : sNum ≤ 10 ^ sScale)
    (hfit : a * sNum < 10 ^ decimalPrec) :
    min_out a sNum sScale = .ok (a * sNum / 10 ^ sScale) ∧
    a * sNum / 10 ^ sScale ≤ a := by
  have _ := hpos
  exact ⟨min_out_exact hfit, min_out_le htol hfit (min_out_exact hfit)⟩

/-- Witness for C1 at Scenario A's numbers: tolerance 0.98, assumed
output 2,000,000, minimum output 1,960,000. -/
theorem claim1_min_out_floor_witness :
    (min_out 2000000 98 2 = .ok (2000000 * 98 / 10 ^ 2) ∧
      2000000 * 98 / 10 ^ 2 ≤ 2000000) ∧
    2000000 * 98 / 10 ^ 2 = 1960000 :=
  ⟨claim1_min_out_floor 2000000 98 2 (by norm_num) (by norm_num)
      (by norm_num [decimalPrec]),
    by norm_num⟩

/-! ## Claim C2 -/

/-- Claim C2: every plan the swap builder produces has exactly one
OutputToken entry, and its `minAmountOut` equals the sum of the per-token
minimum outputs of the included tokens (the collected `token_quotes`). -/
theorem claim2_single_output_sum (cfg : SwapConfig) (contract_address : Nat)
    (balanceOf : Nat → Nat)
    (quote_fn : Nat → Nat → Except Unit SushiQuoteResult)
    (r : SwapBuildResult)
    (h : build_swap_parameters cfg contract_address balanceOf quote_fn = .ok r) :
    r.output_tokens = [(cfg.usdc_address, contract_address, r.min_total_usdc)] ∧
    r.output_tokens.length = 1 ∧
    r.min_total_usdc = (r.token_quotes.map SwapTokenQuote.min_usdc_out).sum := by
  obtain ⟨-, -, h3, -, h5⟩ := build_swap_result_spec h
  exact ⟨h5, by rw [h5]; rfl, h3⟩

/-- Witness for C2 on the Scenario A build. -/
theorem claim2_single_output_sum_witness :
    exampleSwapResult.output_tokens =
      [(exampleSwapCfg.usdc_address, 200, exampleSwapResult.min_total_usdc)] ∧
    exampleSwapResult.output_tokens.length = 1 ∧
    exampleSwapResult.min_total_usdc =
      (exampleSwapResult.token_quotes.map SwapTokenQuote.min_usdc_out).sum :=
  claim2_single_output_sum exampleSwapCfg 200 exampleBalanceOf exampleQuoteFn
    exampleSwapResult (by rfl)

/-! ## Claim C4 -/

/-- Claim C4: in every produced plan the InputToken and ExecutorCall
arrays have equal length and are index-aligned — both are images of the
same `token_quotes` list, and in particular the i-th InputToken's
`transferTo` equals the i-th ExecutorCall's executor address. -/
theorem claim4_arrays_aligned (cfg : SwapConfig) (contract_address : Nat)
    (balanceOf : Nat → Nat)
    (quote_fn : Nat → Nat → Except Unit SushiQuoteResult)
    (r : SwapBuildResult)
    (h : build_swap_parameters cfg contract_address balanceOf quote_fn = .ok r) :
    r.input_tokens.length = r.executors.length ∧
    r.input_tokens =
      r.token_quotes.map (fun qt => (qt.token_address, qt.balance, qt.executor)) ∧
    r.executors =
      r.token_quotes.map (fun qt => (qt.executor, 0, qt.executor_data)) ∧
    ∀ (i : Nat) (h1 : i < r.input_tokens.length) (h2 : i < r.executors.length),
      (r.input_tokens.get ⟨i, h1⟩).2.2 = (r.executors.get ⟨i, h2⟩).1 := by
  obtain ⟨h1, h2, -, -, -⟩ := build_swap_result_spec h
  refine ⟨by rw [h1, h2]; simp, h1, h2, ?_⟩
  intro i hi1 hi2
  simp [List.get_eq_getElem, h1, h2]

/-- Witness for C4 on the Scenario A build: one entry each, aligned at
index 0. -/
theorem claim4_arrays_aligned_witness :
    exampleSwapResult.input_tokens.length = exampleSwapResult.executors.length ∧
    (exampleSwapResult.input_tokens.get ⟨0, by decide⟩).2.2 =
      (exampleSwapResult.executors.get ⟨0, by decide⟩).1 := by
  obtain ⟨hlen, -, -, helem⟩ :=
    claim4_arrays_aligned exampleSwapCfg 200 exampleBalanceOf exampleQuoteFn
      exampleSwapResult (by rfl)
  exact ⟨hlen, helem 0 (by decide) (by decide)⟩

/-! ## Claim C3 -/

/-- Claim C3: for every pair of non-negative inputs (the observed
settlement-asset balance of the destination contract and the new
aggregate minimum), `build_bridge_call` sets `bridgeAmount` to their
exact sum and records both summands unchanged. -/
theorem claim3_bridge_amount_sum (contract_balance min_total_usdc : Nat)
    (jumper_fn : Nat → Except Unit JumperDetails) (r : BridgeBuildResult)
    (h : build_bridge_call contract_balance min_total_usdc jumper_fn = .ok r) :
    r.bridge_amount = contract_balance + min_total_usdc ∧
    r.contract_usdc_balance = contract_balance ∧
    r.min_total_usdc = min_total_usdc := by
  unfold build_bridge_call at h
  simp only [] at h
  split at h
  · cases h
  · split at h
    · cases h
      exact ⟨rfl, rfl, rfl⟩
    · cases h

/-- Witness for C3 at Scenario C's numbers: contract balance 500 and new
minimum 1,960,000 give bridgeAmount 1,960,500. -/
theorem claim3_bridge_amount_sum_witness :
    ({ call_target := 0, call_data := [], native_value := 0,
       bridge_amount := 1960500, contract_usdc_balance := 500,
       min_total_usdc := 1960000,
       jumper_payload := { transaction := exampleEnvelope } :
        BridgeBuildResult }).bridge_amount = 500 + 1960000 ∧
    ({ call_target := 0, call_data := [], native_value := 0,
       bridge_amount := 1960500, contract_usdc_balance := 500,
       min_total_usdc := 1960000,
       jumper_payload := { transaction := exampleEnvelope } :
        BridgeBuildResult }).contract_usdc_balance = 500 ∧
    ({ call_target := 0, call_data := [], native_value := 0,
       bridge_amount := 1960500, contract_usdc_balance := 500,
       min_total_usdc := 1960000,
       jumper_payload := { transaction := exampleEnvelope } :
        BridgeBuildResult }).min_total_usdc = 1960000 :=
  claim3_bridge_amount_sum 500 1960000 exampleJumperFn _ (by rfl)

/-! ## Claim C5 -/

/-- Claim C5: the route decode first tries the multi-execution shape and
uses only the first executor entry's (checksummed address, payload) when
it parses; on any failure of the multi path — a decode error or an empty
executor array — it falls back to the legacy single-execution shape; and
when both shapes fail, exactly one DecodeError (the single decoder's)
propagates to the caller. -/
theorem claim5_decode_fallback
    (decodeMulti : List Char → Except DecodeError MultiDecoded)
    (decodeSingle : List Char → Except DecodeError SingleDecoded)
    (raw : List Char) :
    (∀ (m : MultiDecoded) (entry : MultiExecutorEntry)
        (rest : List MultiExecutorEntry),
      decodeMulti raw = .ok m → m.executors = entry :: rest →
      decode_route_executor decodeMulti decodeSingle raw =
        .ok (entry.executor, entry.data)) ∧
    (∀ (e : DecodeError) (s : SingleDecoded),
      decodeMulti raw = .error e → decodeSingle raw = .ok s →
      decode_route_executor decodeMulti decodeSingle raw =
        .ok (s.executor, s.executorData)) ∧
    (∀ (m : MultiDecoded) (s : SingleDecoded),
      decodeMulti raw = .ok m → m.executors = [] → decodeSingle raw = .ok s →
      decode_route_executor decodeMulti decodeSingle raw =
        .ok (s.executor, s.executorData)) ∧
    (∀ (e1 e2 : DecodeError),
      decodeMulti raw = .error e1 → decodeSingle raw = .error e2 →
      decode_route_executor decodeMulti decodeSingle raw = .error e2) := by
  refine ⟨?_, ?_, ?_, ?_⟩
  · intro m entry rest hm hex
    simp [decode_route_executor, hm, hex]
  · intro e s hm hs
    simp [decode_route_executor, hm, hs]
  · intro m s hm hex hs
    simp [decode_route_executor, hm, hex, hs]
  · intro e1 e2 hm hs
    simp [decode_route_executor, hm, hs]

/-- Multi decoder used by the C5 witness: parses only the payload `"m"`. -/
def exampleMultiDecode : List Char → Except DecodeError MultiDecoded :=
  fun raw =>
    if raw = ['m'] then .ok { executors := [{ executor := 9, value := 0, data := [3] }] }
    else .error { message := "not multi" }

/-- Single decoder used by the C5 witness: parses `"s"` and `"m"`. -/
def exampleSingleDecode : List Char → Except DecodeError SingleDecoded :=
  fun raw =>
    if raw = ['s'] then .ok { executor := 8, executorData := [4] }
    else .error { message := "not single" }

/-- Witness for C5: the multi shape wins on `"m"`, the fallback decodes
`"s"`, and on `"z"` the single decoder's error propagates. -/
theorem claim5_decode_fallback_witness :
    decode_route_executor exampleMultiDecode exampleSingleDecode ['m'] =
      .ok (9, [3]) ∧
    decode_route_executor exampleMultiDecode exampleSingleDecode ['s'] =
      .ok (8, [4]) ∧
    decode_route_executor exampleMultiDecode exampleSingleDecode ['z'] =
      .error { message := "not single" } := by
  refine ⟨?_, ?_, ?_⟩
  · exact (claim5_decode_fallback exampleMultiDecode exampleSingleDecode ['m']).1
      { executors := [{ executor := 9, value := 0, data := [3] }] }
      { executor := 9, value := 0, data := [3] } [] (by rfl) rfl
  · exact (claim5_decode_fallback exampleMultiDecode exampleSingleDecode ['s']).2.1
      { message := "not multi" } { executor := 8, executorData := [4] }
      (by rfl) (by rfl)
  · exact (claim5_decode_fallback exampleMultiDecode exampleSingleDecode ['z']).2.2.2
      { message := "not multi" } { message := "not single" } (by rfl) (by rfl)

/-! ## Claim C6 -/

/-- Claim C6: swap-input validation re-reads balance and allowance per
InputToken; any token whose balance is below its required `amountIn` makes
the validation raise (no result list is returned), while a token whose
balance suffices but whose allowance is below `amountIn` is recorded in
the returned results — with `has_allowance` false — without raising. -/
theorem claim6_swap_input_validation (whitelist : List TokenConfig)
    (balanceOf allowanceOf : Nat → Nat)
    (input_tokens output_tokens : List (Nat × Nat × Nat))
    (executors : List (Nat × Nat × List Nat)) :
    ((∃ ti ∈ input_tokens, balanceOf ti.1 < ti.2.1) →
      ∀ results,
        validate_swap_inputs whitelist balanceOf allowanceOf input_tokens
          output_tokens executors ≠ .ok results) ∧
    (input_tokens ≠ [] → output_tokens ≠ [] → executors ≠ [] →
      (∀ ti ∈ input_tokens, ti.2.1 ≤ balanceOf ti.1) →
      validate_swap_inputs whitelist balanceOf allowanceOf input_tokens
          output_tokens executors =
        .ok (input_tokens.map (mkTokenValidation whitelist balanceOf allowanceOf)) ∧
      ∀ ti ∈ input_tokens,
        (mkTokenValidation whitelist balanceOf allowanceOf ti).has_allowance =
          decide (ti.2.1 ≤ allowanceOf ti.1)) := by
  constructor
  · intro hex results h
    unfold validate_swap_inputs at h
    split at h
    · cases h
    · split at h
      · cases h
      · split at h
        · cases h
        · exact validateTokensGo_not_ok_of_insufficient hex results h
  · intro h1 h2 h3 hall
    have e1 : ¬ (input_tokens.isEmpty = true) := by
      cases input_tokens with
      | nil => exact absurd rfl h1
      | cons a l => simp
    have e2 : ¬ (output_tokens.isEmpty = true) := by
      cases output_tokens with
      | nil => exact absurd rfl h2
      | cons a l => simp
    have e3 : ¬ (executors.isEmpty = true) := by
      cases executors with
      | nil => exact absurd rfl h3
      | cons a l => simp
    refine ⟨?_, ?_⟩
    · unfold validate_swap_inputs
      rw [if_neg e1, if_neg e2, if_neg e3]
      exact validateTokensGo_ok_of_sufficient hall
    · intro ti _
      rfl

/-- Balance oracle for the failing part of the C6 witness: every balance
is 10, below the required 1000. -/
def lowBalanceOf : Nat → Nat := fun _ => 10

/-- Allowance oracle for the C6 witness: every allowance is 5, below the
required 1000. -/
def lowAllowanceOf : Nat → Nat := fun _ => 5

/-- Witness for C6: with required amount 1000, a balance of 10 makes
validation fail, while a balance of 1000 with allowance 5 returns a
result whose `has_allowance` is false. -/
theorem claim6_swap_input_validation_witness :
    (∀ results,
      validate_swap_inputs exampleSwapCfg.whitelisted_tokens lowBalanceOf
        lowAllowanceOf [(7, 1000, 55)] [(100, 200, 980)] [(55, 0, [1, 2])] ≠
        .ok results) ∧
    validate_swap_inputs exampleSwapCfg.whitelisted_tokens exampleBalanceOf
        lowAllowanceOf [(7, 1000, 55)] [(100, 200, 980)] [(55, 0, [1, 2])] =
      .ok [{ token_address := 7, symbol := "TOK", required_amount := 1000,
             balance := 1000, allowance := 5 }] ∧
    ({ token_address := 7, symbol := "TOK", required_amount := 1000,
       balance := 1000, allowance := 5 : TokenValidationResult }).has_allowance
      = false := by
  refine ⟨?_, ?_, ?_⟩
  · exact (claim6_swap_input_validation exampleSwapCfg.whitelisted_tokens
      lowBalanceOf lowAllowanceOf [(7, 1000, 55)] [(100, 200, 980)]
      [(55, 0, [1, 2])]).1 ⟨(7, 1000, 55), by simp, by norm_num [lowBalanceOf]⟩
  · have := ((claim6_swap_input_validation exampleSwapCfg.whitelisted_tokens
      exampleBalanceOf lowAllowanceOf [(7, 1000, 55)] [(100, 200, 980)]
      [(55, 0, [1, 2])]).2 (by simp) (by simp) (by simp)
      (by intro ti hti; simp at hti; subst hti; simp [exampleBalanceOf])).1
    rw [this]
    rfl
  · rfl

/-! ## Claim C7 -/

/-- Claim C7: bridge-call validation raises exactly when the (checksummed)
call target is the zero address; a `BridgeCall` whose envelope carries the
zero address still builds structurally, the failure only occurs at
validation.  On a non-zero target the returned record carries
`requiredNative = nativeValue + gas_buffer` — a fixed constant buffer
(1,000,000 gas units at 1 gwei, independent of any live gas price) — and
a signer balance below `requiredNative` is only recorded as
`has_sufficient_native = false`, never raised. -/
theorem claim7_bridge_validation (call_target : Nat)
    (native_balance native_value : Int) :
    ((∃ e, validate_bridge_call call_target native_balance native_value =
        .error e) ↔ call_target = 0) ∧
    (∀ r, validate_bridge_call call_target native_balance native_value = .ok r →
      r.required_native = native_value + gas_buffer ∧
      r.call_target = call_target ∧
      r.native_balance = native_balance ∧
      r.has_sufficient_native =
        decide (native_value + gas_buffer ≤ native_balance)) ∧
    (∀ (cb mt : Nat) (jf : Nat → Except Unit JumperDetails)
        (d : JumperDetails) (bs : List Nat) (v : Int),
      jf (cb + mt) = .ok d →
      parseAddress d.transaction.toAddr = some 0 →
      hex_to_bytes d.transaction.data = some bs →
      pythonIntHex d.transaction.value = some v →
      ∃ r, build_bridge_call cb mt jf = .ok r ∧ r.call_target = 0) := by
  refine ⟨?_, ?_, ?_⟩
  · constructor
    · rintro ⟨e, he⟩
      by_contra hne
      simp [validate_bridge_call, hne] at he
    · intro h0
      exact ⟨(), by simp [validate_bridge_call, h0]⟩
  · intro r hr
    unfold validate_bridge_call at hr
    split at hr
    · cases hr
    · cases hr
      exact ⟨rfl, rfl, rfl, rfl⟩
  · intro cb mt jf d bs v hjf hto hdata hval
    have hb : build_bridge_call cb mt jf =
        .ok { call_target := 0, call_data := bs, native_value := v,
              bridge_amount := cb + mt, contract_usdc_balance := cb,
              min_total_usdc := mt, jumper_payload := d } := by
      unfold build_bridge_call
      simp only [hjf]
      rw [hto, hdata, hval]
    exact ⟨_, hb, rfl⟩

/-- Witness for C7: target 0 fails validation; target 5 with native value
3 and balance 10¹⁸ passes with `requiredNative = 3 + gas_buffer`; and the
Scenario D zero-target envelope still builds. -/
theorem claim7_bridge_validation_witness :
    (∃ e, validate_bridge_call 0 (10 ^ 18) 3 = .error e) ∧
    (({ call_target := 5, native_balance := 10 ^ 18,
        required_native := 1000000000000003, has_sufficient_native := true :
        BridgeValidationResult }).required_native = 3 + gas_buffer ∧
      ({ call_target := 5, native_balance := 10 ^ 18,
         required_native := 1000000000000003, has_sufficient_native := true :
         BridgeValidationResult }).call_target = 5 ∧
      ({ call_target := 5, native_balance := 10 ^ 18,
         required_native := 1000000000000003, has_sufficient_native := true :
         BridgeValidationResult }).native_balance = 10 ^ 18 ∧
      ({ call_target := 5, native_balance := 10 ^ 18,
         required_native := 1000000000000003, has_sufficient_native := true :
         BridgeValidationResult }).has_sufficient_native =
        decide ((3 : Int) + gas_buffer ≤ 10 ^ 18)) ∧
    (∃ r, build_bridge_call 500 1960000 exampleJumperFn = .ok r ∧
      r.call_target = 0) := by
  refine ⟨(claim7_bridge_validation 0 (10 ^ 18) 3).1.mpr rfl, ?_, ?_⟩
  · exact (claim7_bridge_validation 5 (10 ^ 18) 3).2.1 _ (by rfl)
  · exact (claim7_bridge_validation 0 0 0).2.2 500 1960000 exampleJumperFn
      { transaction := exampleEnvelope } [] 0 rfl (by rfl) (by rfl) (by rfl)

/-! ## Claim C8 -/

/-- Claim C8: during the swap build a token with zero balance, a failing
quote, or an assumed output below the dust threshold is skipped without
aborting the build (the loop body returns the accumulator unchanged); an
empty configured whitelist fails before any per-token work with the
configuration error, and a build in which no token survives fails with
the distinct no-eligible-input error. -/
theorem claim8_skip_and_errors :
    (∀ (cfg : SwapConfig) (ca : Nat) (b : Nat → Nat)
        (q : Nat → Nat → Except Unit SushiQuoteResult),
      cfg.whitelisted_tokens = [] →
      build_swap_parameters cfg ca b q = .error .whitelistEmpty) ∧
    (∀ (cfg : SwapConfig) (ca : Nat) (b : Nat → Nat)
        (q : Nat → Nat → Except Unit SushiQuoteResult),
      cfg.whitelisted_tokens ≠ [] →
      (∀ t ∈ cfg.whitelisted_tokens, skipsToken cfg b q t) →
      build_swap_parameters cfg ca b q = .error .noEligibleTokens) ∧
    (∀ (cfg : SwapConfig) (b : Nat → Nat)
        (q : Nat → Nat → Except Unit SushiQuoteResult) (acc : SwapAcc)
        (t : TokenConfig),
      skipsToken cfg b q t → processToken cfg b q acc t = .ok acc) ∧
    SwapBuildError.whitelistEmpty ≠ SwapBuildError.noEligibleTokens := by
  refine ⟨?_, ?_, ?_, by simp⟩
  · intro cfg ca b q hempty
    unfold build_swap_parameters
    simp only []
    rw [hempty]
    rfl
  · intro cfg ca b q hne hall
    unfold build_swap_parameters
    simp only []
    have hsne : sortBySymbol cfg.whitelisted_tokens ≠ [] := by
      intro hnil
      exact hne (sortBySymbol_eq_nil.mp hnil)
    have hie : ¬ ((sortBySymbol cfg.whitelisted_tokens).isEmpty = true) := by
      cases hs : sortBySymbol cfg.whitelisted_tokens with
      | nil => exact absurd hs hsne
      | cons a l => simp
    rw [if_neg hie,
      foldlM_processToken_all_skip _ initSwapAcc
        (fun t ht => hall t (mem_sortBySymbol.mp ht))]
    rfl
  · intro cfg b q acc t hskip
    exact processToken_skip acc hskip

/-- Two-token configuration mirroring spec Scenario B: token `"A"` has a
zero balance, token `"B"` quotes below the dust threshold. -/
def scenarioBCfg : SwapConfig :=
  { whitelisted_tokens := [{ symbol := "A", address := 7 },
                           { symbol := "B", address := 8 }]
    usdc_address := 100
    usdc_threshold := 1000000
    slippage_num := 98
    slippage_scale := 2 }

/-- Balance oracle for Scenario B: token 7 has zero balance, others 5. -/
def scenarioBBalanceOf : Nat → Nat := fun a => if a = 7 then 0 else 5

/-- Quote oracle for Scenario B: every quote's assumed output is 100,
below the threshold of 1,000,000. -/
def scenarioBQuoteFn : Nat → Nat → Except Unit SushiQuoteResult :=
  fun _ _ => .ok { executor := 55, executor_data := [], assumed_amount_out := 100 }

/-- Configuration with an empty whitelist. -/
def emptyWhitelistCfg : SwapConfig :=
  { whitelisted_tokens := []
    usdc_address := 100
    usdc_threshold := 1000000
    slippage_num := 98
    slippage_scale := 2 }

/-- Witness for C8: the empty whitelist fails with the configuration
error, Scenario B fails with the distinct no-eligible-input error, and the
loop body leaves the accumulator unchanged on Scenario B's zero-balance
token. -/
theorem claim8_skip_and_errors_witness :
    build_swap_parameters emptyWhitelistCfg 200 exampleBalanceOf exampleQuoteFn =
      .error .whitelistEmpty ∧
    build_swap_parameters scenarioBCfg 200 scenarioBBalanceOf scenarioBQuoteFn =
      .error .noEligibleTokens ∧
    processToken scenarioBCfg scenarioBBalanceOf scenarioBQuoteFn initSwapAcc
      { symbol := "A", address := 7 } = .ok initSwapAcc := by
  refine ⟨claim8_skip_and_errors.1 emptyWhitelistCfg 200 exampleBalanceOf
      exampleQuoteFn rfl, ?_, ?_⟩
  · refine claim8_skip_and_errors.2.1 scenarioBCfg 200 scenarioBBalanceOf
      scenarioBQuoteFn (by simp [scenarioBCfg]) ?_
    intro t ht
    simp only [scenarioBCfg, List.mem_cons, List.not_mem_nil, or_false] at ht
    rcases ht with h | h
    · subst h
      exact Or.inl rfl
    · subst h
      exact Or.inr (Or.inr ⟨⟨55, [], 100⟩, rfl, by norm_num [scenarioBCfg]⟩)
  · exact claim8_skip_and_errors.2.2.1 scenarioBCfg scenarioBBalanceOf
      scenarioBQuoteFn initSwapAcc ⟨"A", 7⟩ (Or.inl rfl)

/-! ## Claim C9 -/

/-- Claim C9, counterexample: the cache key of
`_get_or_create_contract` is `(id(web3), checksum_address)` — it is built
from the connection OBJECT's identity, not from a configured connection
identity.  Two connection objects configured for the same connection
(equal `connectionId`, distinct `objId`) get different keys for the same
token, and after the first object populates the cache, a lookup for the
second misses and creates a second entry instead of sharing the handle —
contradicting the claim. -/
theorem claim9_counterexample :
    ({ objId := 1, connectionId := 7 } : Web3Handle).connectionId =
      ({ objId := 2, connectionId := 7 } : Web3Handle).connectionId ∧
    cacheKey { objId := 1, connectionId := 7 } 5 ≠
      cacheKey { objId := 2, connectionId := 7 } 5 ∧
    (getOrCreateContract
      (getOrCreateContract [] { objId := 1, connectionId := 7 } 5).2
      { objId := 2, connectionId := 7 } 5).2.length = 2 := by
  refine ⟨rfl, by decide, by rfl⟩

/-- Helper for C9: repeated lookups through the same connection object do
return the cached handle. -/
theorem getOrCreate_same_object (cache : List ((Nat × Nat) × ContractHandle))
    (w : Web3Handle) (a : Nat) :
    (getOrCreateContract (getOrCreateContract cache w a).2 w a).1 =
      (getOrCreateContract cache w a).1 := by
  unfold getOrCreateContract
  simp only []
  cases hf : cache.find? (fun entry => entry.1 == cacheKey w a) with
  | some e => simp [hf]
  | none => simp [hf, List.find?_cons]

/-- Claim C9 (amended): the cache key is `(id(web3), checksummed token
address)`: it uses the connection object's identity, so keys coincide
exactly when both the connection object and the token address coincide.
Handles are therefore shared between calls through the same connection
object (second conjunct) and never leak across distinct connection
objects — but, contrary to the original claim, two distinct connection
objects configured for the same connection do not share cached handles. -/
theorem claim9_cache_key_object_identity (w1 w2 : Web3Handle) (a1 a2 : Nat) :
    (cacheKey w1 a1 = cacheKey w2 a2 ↔ (w1.objId = w2.objId ∧ a1 = a2)) ∧
    ∀ (cache : List ((Nat × Nat) × ContractHandle)),
      (getOrCreateContract (getOrCreateContract cache w1 a1).2 w1 a1).1 =
        (getOrCreateContract cache w1 a1).1 := by
  constructor
  · unfold cacheKey
    constructor
    · intro h
      exact ⟨congrArg Prod.fst h, congrArg Prod.snd h⟩
    · rintro ⟨h1, h2⟩
      rw [h1, h2]
  · intro cache
    exact getOrCreate_same_object cache w1 a1

/-! ## Claim C10 -/

/-- Envelope whose hex-encoded value field is the signed string `-0x1`. -/
def negValueEnvelope : TxEnvelope :=
  { toAddr := zeroAddrHex, data := ['0', 'x'], value := ['-', '0', 'x', '1'] }

/-- Bridge-quote oracle returning `negValueEnvelope`. -/
def negValueJumperFn : Nat → Except Unit JumperDetails :=
  fun _ => .ok { transaction := negValueEnvelope }

/-- Envelope whose hex-encoded value field is the string ` -0x1`, with a
leading space that `int(s, 16)` strips before sign handling. -/
def spacedNegValueEnvelope : TxEnvelope :=
  { toAddr := zeroAddrHex, data := ['0', 'x'], value := [' ', '-', '0', 'x', '1'] }

/-- Bridge-quote oracle returning `spacedNegValueEnvelope`. -/
def spacedNegValueJumperFn : Nat → Except Unit JumperDetails :=
  fun _ => .ok { transaction := spacedNegValueEnvelope }

/-- Claim C10, counterexample: `int(tx["value"], 16)` strips surrounding
whitespace and accepts a signed hex string, so the envelope values `-0x1`
and ` -0x1` are both accepted by the builder and produce a `BridgeCall`
with `nativeValue = -1 < 0`, contradicting the claim that every accepted
envelope yields `nativeValue ≥ 0`. -/
theorem claim10_counterexample :
    (∃ r, build_bridge_call 0 0 negValueJumperFn = .ok r ∧
      r.native_value = -1 ∧ r.native_value < 0) ∧
    (∃ r, build_bridge_call 0 0 spacedNegValueJumperFn = .ok r ∧
      r.native_value = -1 ∧ r.native_value < 0) := by
  constructor
  · refine ⟨{ call_target := 0, call_data := [], native_value := -1,
              bridge_amount := 0, contract_usdc_balance := 0,
              min_total_usdc := 0,
              jumper_payload := { transaction := negValueEnvelope } },
      by rfl, rfl, by norm_num⟩
  · refine ⟨{ call_target := 0, call_data := [], native_value := -1,
              bridge_amount := 0, contract_usdc_balance := 0,
              min_total_usdc := 0,
              jumper_payload := { transaction := spacedNegValueEnvelope } },
      by rfl, rfl, by norm_num⟩

/-- Claim C10 (amended): `nativeValue` is the signed integer denoted by
the envelope's hex-encoded value string; whenever that string — after the
surrounding-whitespace stripping `int(s, 16)` performs — does not begin
with a minus sign, in particular for every `0x…` envelope the bridge
service actually sends, the returned `BridgeCall` has `nativeValue ≥ 0`.
The parser itself does not reject a signed string. -/
theorem claim10_native_value_nonneg (cb mt : Nat)
    (jf : Nat → Except Unit JumperDetails) (d : JumperDetails)
    (r : BridgeBuildResult)
    (hjf : jf (cb + mt) = .ok d)
    (hsign : ∀ rest, stripPySpace d.transaction.value ≠ '-' :: rest)
    (h : build_bridge_call cb mt jf = .ok r) :
    0 ≤ r.native_value := by
  unfold build_bridge_call at h
  simp only [] at h
  split at h
  · cases h
  · rename_i details hdetails
    split at h
    · rename_i target callBytes value hto hdata hval
      cases h
      have hd : details = d := by
        rw [hdetails] at hjf
        cases hjf
        rfl
      subst hd
      exact pythonIntHex_nonneg hval hsign
    · cases h

/-- Witness for C10 on the unsigned envelope value `0x0`. -/
theorem claim10_native_value_nonneg_witness :
    0 ≤ ({ call_target := 0, call_data := [], native_value := 0,
           bridge_amount := 500 + 1960000, contract_usdc_balance := 500,
           min_total_usdc := 1960000,
           jumper_payload := { transaction := exampleEnvelope } :
           BridgeBuildResult }).native_value :=
  claim10_native_value_nonneg 500 1960000 exampleJumperFn
    { transaction := exampleEnvelope } _ rfl
    (by
      intro rest hr
      have h0 : stripPySpace
          ({ transaction := exampleEnvelope } : JumperDetails).transaction.value
          = ['0', 'x', '0'] := by rfl
      rw [h0] at hr
      injection hr with h1 h2
      exact absurd h1 (by decide))
    (by rfl)

end BarV2
